import Mathlib

/- Shallow embedding of the multimodal chat server core (src/server/app.py):
the session store, the routing context construction, the three generators,
the video polling loop and the per-turn orchestrator handle_message.
External backends (router LLM, text, image and video generation) are
modelled as oracle inputs supplied per turn; file and network writes are
modelled by the values the code derives from them (fresh uuid hex names and
the returned URLs). The wall-clock polling deadline is modelled as fuel:
the number of retrieve iterations the deadline admits. -/

/-- Python str.strip with no argument: remove leading and trailing whitespace. -/
def pyStrip (s : String) : String :=
  String.mk (((s.data.dropWhile Char.isWhitespace).reverse.dropWhile Char.isWhitespace).reverse)

/-- Python truthiness of an optional string: None and the empty string are falsy. -/
def strTruthy : Option String → Bool
  | none => false
  | some s => !(s == "")

/-- Python `a or dflt` on an optional string hint. -/
def pyOrStr (a : Option String) (dflt : String) : String :=
  match a with
  | none => dflt
  | some s => if s == "" then dflt else s

inductive Intent where
  | text
  | image
  | video
deriving DecidableEq

structure Message where
  role : String
  content : String
deriving DecidableEq

structure SessionState where
  messages : List Message := []
  last_intent : Option Intent := none
  last_image_response_id : Option String := none
  last_video_id : Option String := none
  last_video_completed : Bool := false
deriving DecidableEq

/-- The in-memory session registry SESSIONS, as an association list keyed by session id. -/
abbrev Store := List (String × SessionState)

/-- get_or_create_session; the uuid that Python would draw is passed in as fresh_uuid. -/
def get_or_create_session (store : Store) (session_id : Option String) (fresh_uuid : String) :
    String × SessionState × Store :=
  match session_id with
  | some sid =>
    if sid == "" then
      (fresh_uuid, {}, (fresh_uuid, ({} : SessionState)) :: store)
    else
      match store.lookup sid with
      | some st => (sid, st, store)
      | none => (sid, {}, (sid, ({} : SessionState)) :: store)
  | none => (fresh_uuid, {}, (fresh_uuid, ({} : SessionState)) :: store)

structure RouteDecision where
  intent : Intent
  prompt : String
  seconds : Option String := none
  size : Option String := none
  style : Option String := none
deriving DecidableEq

def formatMessage (m : Message) : String := m.role ++ ": " ++ m.content

/-- Conversation context built inside route_intent: the last six messages joined by newlines, or the placeholder when there are none. -/
def route_intent_context (session : SessionState) : String :=
  let last_few := session.messages.drop (session.messages.length - 6)
  if last_few.isEmpty then "(none)"
  else String.intercalate "\n" (last_few.map formatMessage)

/-- The user-role content string route_intent sends to the classification backend. -/
def route_intent_input (user_text : String) (session : SessionState) : String :=
  "Recent conversation:\n" ++ route_intent_context session ++ "\n\nUser message:\n" ++ user_text

/-- URL returned by save_bytes for a fresh uuid hex name; the byte write itself is I/O outside the model. -/
def save_bytes (ext : String) (fresh_hex : String) : String :=
  "/outputs/" ++ fresh_hex ++ "." ++ ext

/-- Text generator: appends the routed prompt as a user message, calls the backend on the whole history (its output_text supplied as the oracle reply, None coalesced to the empty string), then appends the assistant reply. -/
def generate_text (session : SessionState) (prompt : String) (reply : Option String) :
    SessionState × String :=
  let session1 := { session with messages := session.messages ++ [Message.mk "user" prompt] }
  let text := match reply with
    | none => ""
    | some s => s
  ({ session1 with messages := session1.messages ++ [Message.mk "assistant" text] }, text)

structure HTTPException where
  status_code : Nat
  detail : String
deriving DecidableEq

inductive OutputItem where
  | image_generation_call (result : Option String)
  | other (t : Option String)
deriving DecidableEq

structure ImageResponse where
  id : String
  output : List OutputItem
deriving DecidableEq

/-- The extraction loop of generate_image: the result field of the first output item whose type is image_generation_call, if any item has that type. -/
def findImageResult : List OutputItem → Option String
  | [] => none
  | OutputItem.image_generation_call r :: _ => r
  | OutputItem.other _ :: rest => findImageResult rest

structure ImageRequest where
  model : String
  input : String
  previous_response_id : Option String := none
deriving DecidableEq

/-- Process configuration read from the environment, with the source defaults. -/
structure Config where
  router_model : String := "gpt-4o-mini"
  text_model : String := "gpt-5.2"
  video_model : String := "sora-2"
  video_seconds : String := "4"
  video_size : String := "720x1280"
deriving DecidableEq

/-- The input_prompt composition of generate_image: the style hint is appended when truthy. -/
def input_prompt (prompt : String) (style : Option String) : String :=
  match style with
  | none => prompt
  | some s => if s == "" then prompt else prompt ++ "\n\nStyle: " ++ s

/-- The request generate_image issues: previous_response_id is attached exactly when the last intent is image and the stored handle is truthy. -/
def imageRequest (cfg : Config) (session : SessionState) (prompt : String) (style : Option String) :
    ImageRequest :=
  { model := cfg.text_model
    input := input_prompt prompt style
    previous_response_id :=
      if session.last_intent = some Intent.image ∧ strTruthy session.last_image_response_id = true then
        session.last_image_response_id
      else none }

/-- generate_image: builds the request, stores the response id as the continuation handle, then extracts the image payload; a falsy payload raises HTTP 500. The backend response is the oracle resp and the uuid hex for the saved file is fresh_hex. -/
def generate_image (cfg : Config) (session : SessionState) (prompt : String) (style : Option String)
    (resp : ImageResponse) (fresh_hex : String) :
    ImageRequest × SessionState × Except HTTPException String :=
  let req := imageRequest cfg session prompt style
  let session1 := { session with last_image_response_id := some resp.id }
  (req, session1,
    if strTruthy (findImageResult resp.output) then Except.ok (save_bytes "png" fresh_hex)
    else Except.error { status_code := 500, detail := "No image generated in response output." })

structure VideoJob where
  id : String
  status : Option String := none
deriving DecidableEq

inductive VideoRequest where
  | create (prompt model seconds size : String)
  | remix (video_id prompt : String)
deriving DecidableEq

/-- The create-or-remix choice of generate_video: remix exactly when the last intent is video, a truthy job id is recorded and that job completed. -/
def videoRequest (cfg : Config) (session : SessionState) (prompt : String)
    (seconds size : Option String) : VideoRequest :=
  let use_seconds := pyOrStr seconds cfg.video_seconds
  let use_size := pyOrStr size cfg.video_size
  if session.last_intent = some Intent.video ∧ strTruthy session.last_video_id = true ∧
      session.last_video_completed = true then
    VideoRequest.remix (session.last_video_id.getD "") prompt
  else
    VideoRequest.create prompt cfg.video_model use_seconds use_size

/-- The polling loop body of poll_video_until_done; k indexes the retrieve calls and fuel counts the iterations the deadline still admits. -/
def poll_go (video_id : String) (retrieve : Nat → VideoJob) : Nat → Nat → Except HTTPException VideoJob
  | 0, _ => Except.error { status_code := 504, detail := "Video generation timed out: " ++ video_id }
  | fuel + 1, k =>
    let job := retrieve k
    if job.status = some "completed" then Except.ok job
    else if job.status = some "failed" then
      Except.error { status_code := 500, detail := "Video job failed: " ++ video_id }
    else poll_go video_id retrieve fuel (k + 1)

/-- poll_video_until_done with the wall-clock deadline modelled as fuel. -/
def poll_video_until_done (video_id : String) (retrieve : Nat → VideoJob) (fuel : Nat) :
    Except HTTPException VideoJob :=
  poll_go video_id retrieve fuel 0

/-- download_video_mp4: the returned URL for the fresh uuid hex name. -/
def download_video_mp4 (fresh_hex : String) : String :=
  save_bytes "mp4" fresh_hex

/-- generate_video: chooses create or remix, records the new job id and clears the completed flag before polling, then polls; on completion sets the flag and downloads. The job returned by create/remix, the poll observations and the fuel are oracle inputs. -/
def generate_video (cfg : Config) (session : SessionState) (prompt : String)
    (seconds size : Option String) (job : VideoJob) (retrieve : Nat → VideoJob) (fuel : Nat)
    (fresh_hex : String) :
    VideoRequest × SessionState × Except HTTPException String :=
  let req := videoRequest cfg session prompt seconds size
  let session1 := { session with last_video_id := some job.id, last_video_completed := false }
  (req,
    match poll_video_until_done job.id retrieve fuel with
    | Except.error e => (session1, Except.error e)
    | Except.ok _ =>
      ({ session1 with last_video_completed := true }, Except.ok (download_video_mp4 fresh_hex)))

structure ChatRequest where
  session_id : Option String := none
  text : String
deriving DecidableEq

structure ChatResponse where
  session_id : String
  intent : Intent
  content_type : String
  text : Option String := none
  asset_url : Option String := none
deriving DecidableEq

/-- Per-turn oracle inputs: the backend responses and the fresh identifiers one handle_message turn consumes. -/
structure TurnEnv where
  fresh_uuid : String
  decision : RouteDecision
  text_reply : Option String := none
  image_resp : ImageResponse := { id := "", output := [] }
  image_fresh_hex : String := ""
  video_job : VideoJob := { id := "" }
  video_retrieve : Nat → VideoJob := fun _ => { id := "" }
  video_fuel : Nat := 0
  video_fresh_hex : String := ""

/-- Write-back of the in-place mutation of the session object the store holds: every binding of this id is updated. -/
def storeUpdate (store : Store) (sid : String) (st : SessionState) : Store :=
  store.map (fun p => if p.1 = sid then (p.1, st) else p)

/-- The dispatch part of handle_message after the empty check: records the raw user text, dispatches on the routed intent, applies the generator and the post-success session updates. Returns the final session value together with the response or the raised exception. -/
def run_turn (cfg : Config) (session_id : String) (session : SessionState) (user_text : String)
    (env : TurnEnv) : SessionState × Except HTTPException ChatResponse :=
  let decision := env.decision
  let session0 := { session with messages := session.messages ++ [Message.mk "user" user_text] }
  match decision.intent with
  | Intent.text =>
    let p := generate_text session0 decision.prompt env.text_reply
    ({ p.1 with last_intent := some Intent.text },
      Except.ok { session_id := session_id, intent := Intent.text, content_type := "text",
                  text := some p.2 })
  | Intent.image =>
    let p := generate_image cfg session0 decision.prompt decision.style env.image_resp
      env.image_fresh_hex
    match p.2.2 with
    | Except.error e => (p.2.1, Except.error e)
    | Except.ok url =>
      let s2 := { p.2.1 with last_intent := some Intent.image }
      ({ s2 with messages := s2.messages ++ [Message.mk "assistant" ("[image generated] " ++ url)] },
        Except.ok { session_id := session_id, intent := Intent.image, content_type := "image",
                    asset_url := some url })
  | Intent.video =>
    let p := generate_video cfg session0 decision.prompt decision.seconds decision.size
      env.video_job env.video_retrieve env.video_fuel env.video_fresh_hex
    match p.2.2 with
    | Except.error e => (p.2.1, Except.error e)
    | Except.ok url =>
      let s2 := { p.2.1 with last_intent := some Intent.video }
      ({ s2 with messages := s2.messages ++ [Message.mk "assistant" ("[video generated] " ++ url)] },
        Except.ok { session_id := session_id, intent := Intent.video, content_type := "video",
                    asset_url := some url })

/-- The orchestrator handle_message: resolve or create the session, reject empty input with HTTP 400, then run the turn and write the mutated session back into the store. -/
def handle_message (cfg : Config) (store : Store) (req : ChatRequest) (env : TurnEnv) :
    Store × Except HTTPException ChatResponse :=
  let r := get_or_create_session store req.session_id env.fresh_uuid
  let session_id := r.1
  let session := r.2.1
  let store1 := r.2.2
  let user_text := pyStrip req.text
  if user_text == "" then
    (store1, Except.error { status_code := 400, detail := "Empty message." })
  else
    let p := run_turn cfg session_id session user_text env
    (storeUpdate store1 session_id p.1, p.2)

/- Helper lemmas shared by the claim theorems. -/

/-- A job observation on which the polling loop keeps waiting. -/
def nonTerminalJob (j : VideoJob) : Prop :=
  j.status ≠ some "completed" ∧ j.status ≠ some "failed"

instance (j : VideoJob) : Decidable (nonTerminalJob j) :=
  inferInstanceAs (Decidable (_ ∧ _))

theorem poll_go_timeout (vid : String) (r : Nat → VideoJob) (fuel : Nat) :
    ∀ k, (∀ i, k ≤ i → i < k + fuel → nonTerminalJob (r i)) →
      poll_go vid r fuel k =
        Except.error { status_code := 504, detail := "Video generation timed out: " ++ vid } := by
  induction fuel with
  | zero => intro k _; rfl
  | succ n ih =>
    intro k h
    have h0 := h k (Nat.le_refl k) (by omega)
    simp only [poll_go]
    rw [if_neg h0.1, if_neg h0.2]
    exact ih (k + 1) (fun i h1 h2 => h i (by omega) (by omega))

theorem poll_go_completed (vid : String) (r : Nat → VideoJob) (fuel : Nat) :
    ∀ k m, m < fuel → (r (k + m)).status = some "completed" →
      (∀ i, k ≤ i → i < k + m → nonTerminalJob (r i)) →
      poll_go vid r fuel k = Except.ok (r (k + m)) := by
  induction fuel with
  | zero => intro k m hm _ _; omega
  | succ n ih =>
    intro k m hm hc hpre
    cases m with
    | zero =>
      simp only [Nat.add_zero] at hc ⊢
      simp [poll_go, hc]
    | succ m' =>
      have h0 := hpre k (Nat.le_refl k) (by omega)
      simp only [poll_go]
      rw [if_neg h0.1, if_neg h0.2]
      have he : k + (m' + 1) = (k + 1) + m' := by omega
      rw [he] at hc ⊢
      exact ih (k + 1) m' (by omega) hc (fun i h1 h2 => hpre i (by omega) (by omega))

theorem poll_go_failed (vid : String) (r : Nat → VideoJob) (fuel : Nat) :
    ∀ k m, m < fuel → (r (k + m)).status = some "failed" →
      (∀ i, k ≤ i → i < k + m → nonTerminalJob (r i)) →
      poll_go vid r fuel k =
        Except.error { status_code := 500, detail := "Video job failed: " ++ vid } := by
  induction fuel with
  | zero => intro k m hm _ _; omega
  | succ n ih =>
    intro k m hm hc hpre
    cases m with
    | zero =>
      simp only [Nat.add_zero] at hc ⊢
      have hne : (r k).status ≠ some "completed" := by simp [hc]
      simp [poll_go, hc, hne]
    | succ m' =>
      have h0 := hpre k (Nat.le_refl k) (by omega)
      simp only [poll_go]
      rw [if_neg h0.1, if_neg h0.2]
      have he : k + (m' + 1) = (k + 1) + m' := by omega
      rw [he] at hc
      exact ih (k + 1) m' (by omega) hc (fun i h1 h2 => hpre i (by omega) (by omega))

theorem poll_go_ok_completed (vid : String) (r : Nat → VideoJob) (fuel : Nat) :
    ∀ k j, poll_go vid r fuel k = Except.ok j →
      ∃ i, k ≤ i ∧ i < k + fuel ∧ (r i).status = some "completed" ∧ j = r i := by
  induction fuel with
  | zero => intro k j h; exact absurd h (by simp [poll_go])
  | succ n ih =>
    intro k j h
    by_cases hc : (r k).status = some "completed"
    · refine ⟨k, Nat.le_refl k, by omega, hc, ?_⟩
      simp [poll_go, hc] at h
      exact h.symm
    · by_cases hf : (r k).status = some "failed"
      · simp [poll_go, hc, hf] at h
      · simp only [poll_go] at h
        rw [if_neg hc, if_neg hf] at h
        obtain ⟨i, h1, h2, h3, h4⟩ := ih (k + 1) j h
        exact ⟨i, by omega, by omega, h3, h4⟩

/-- C7: poll_video_until_done returns the job once an observation is completed, raises the HTTP 500 VideoJobFailed error naming the job id once an observation is failed, and raises the distinct HTTP 504 VideoJobTimeout error when the deadline elapses with every observation still non-terminal; the two errors differ. -/
theorem poll_video_outcomes (vid : String) (r : Nat → VideoJob) (fuel m : Nat) :
    ((∀ i, i < fuel → nonTerminalJob (r i)) →
      poll_video_until_done vid r fuel =
        Except.error { status_code := 504, detail := "Video generation timed out: " ++ vid }) ∧
    (m < fuel → (r m).status = some "completed" → (∀ i, i < m → nonTerminalJob (r i)) →
      poll_video_until_done vid r fuel = Except.ok (r m)) ∧
    (m < fuel → (r m).status = some "failed" → (∀ i, i < m → nonTerminalJob (r i)) →
      poll_video_until_done vid r fuel =
        Except.error { status_code := 500, detail := "Video job failed: " ++ vid }) ∧
    ({ status_code := 504, detail := "Video generation timed out: " ++ vid } : HTTPException) ≠
      { status_code := 500, detail := "Video job failed: " ++ vid } := by
  refine ⟨?_, ?_, ?_, by simp⟩
  · intro h
    exact poll_go_timeout vid r fuel 0 (fun i h1 h2 => h i (by omega))
  · intro hm hc hpre
    have := poll_go_completed vid r fuel 0 m hm (by simpa using hc)
      (fun i h1 h2 => hpre i (by omega))
    simpa using this
  · intro hm hc hpre
    have := poll_go_failed vid r fuel 0 m hm (by simpa using hc)
      (fun i h1 h2 => hpre i (by omega))
    simpa using this

/-- Observation sequence used by the polling witness: queued once, then completed. -/
def pollObsA : Nat → VideoJob := fun n =>
  if n = 0 then { id := "j1", status := some "queued" }
  else { id := "j1", status := some "completed" }

/-- Witness for the polling theorem at a concrete observation sequence. -/
theorem poll_video_outcomes_witness :
    poll_video_until_done "j1" pollObsA 3 = Except.ok (pollObsA 1) :=
  (poll_video_outcomes "j1" pollObsA 3 1).2.1 (by omega) (by decide) (by decide)

/-- C9: the routing context is built from exactly the last six entries of the session's messages, all of them when there are six or fewer, and is the fixed placeholder when the session has no messages. -/
theorem route_context_last_six (session : SessionState) :
    (session.messages.drop (session.messages.length - 6)).length =
      min 6 session.messages.length ∧
    session.messages.take (session.messages.length - 6) ++
        session.messages.drop (session.messages.length - 6) = session.messages ∧
    (session.messages = [] → route_intent_context session = "(none)") ∧
    (session.messages ≠ [] →
      route_intent_context session =
        String.intercalate "\n"
          ((session.messages.drop (session.messages.length - 6)).map formatMessage)) := by
  refine ⟨?_, List.take_append_drop _ _, ?_, ?_⟩
  · rw [List.length_drop]; omega
  · intro h; simp [route_intent_context, h]
  · intro h
    have hlen : 0 < session.messages.length := List.length_pos.mpr h
    have hne : session.messages.drop (session.messages.length - 6) ≠ [] := by
      rw [Ne, List.drop_eq_nil_iff]; omega
    simp only [route_intent_context]
    rw [if_neg (by simpa [List.isEmpty_iff] using hne)]

/-- Witness for the routing-context theorem at a concrete session with one message. -/
theorem route_context_last_six_witness :
    route_intent_context { messages := [Message.mk "user" "hello"] } =
      String.intercalate "\n"
        ((([Message.mk "user" "hello"] : List Message).drop
          (([Message.mk "user" "hello"] : List Message).length - 6)).map formatMessage) :=
  (route_context_last_six { messages := [Message.mk "user" "hello"] }).2.2.2 (by decide)

/-- C5: a video turn issues a remix against the recorded prior job id exactly when the session's last intent is video, a truthy video job id is recorded, and the completed flag records that this job reached completed status; in every other case it issues a fresh creation request carrying the prompt, the configured model and the resolved seconds and size. -/
theorem video_remix_iff (cfg : Config) (session : SessionState) (prompt : String)
    (seconds size : Option String) (job : VideoJob) (retrieve : Nat → VideoJob) (fuel : Nat)
    (fresh_hex : String) :
    ((∃ v, (generate_video cfg session prompt seconds size job retrieve fuel fresh_hex).1 =
        VideoRequest.remix v prompt ∧ session.last_video_id = some v) ↔
      (session.last_intent = some Intent.video ∧
        (∃ v, session.last_video_id = some v ∧ v ≠ "") ∧
        session.last_video_completed = true)) ∧
    (¬(session.last_intent = some Intent.video ∧ strTruthy session.last_video_id = true ∧
        session.last_video_completed = true) →
      (generate_video cfg session prompt seconds size job retrieve fuel fresh_hex).1 =
        VideoRequest.create prompt cfg.video_model (pyOrStr seconds cfg.video_seconds)
          (pyOrStr size cfg.video_size)) := by
  have hreq : (generate_video cfg session prompt seconds size job retrieve fuel fresh_hex).1 =
      videoRequest cfg session prompt seconds size := rfl
  rw [hreq]
  constructor
  · constructor
    · rintro ⟨v, hv, hid⟩
      by_cases hcond : session.last_intent = some Intent.video ∧
          strTruthy session.last_video_id = true ∧ session.last_video_completed = true
      · refine ⟨hcond.1, ⟨v, hid, ?_⟩, hcond.2.2⟩
        have h2 := hcond.2.1
        rw [hid] at h2
        simpa [strTruthy] using h2
      · rw [videoRequest.eq_def] at hv
        simp only at hv
        rw [if_neg hcond] at hv
        exact absurd hv (by simp)
    · rintro ⟨h1, ⟨v, hid, hv⟩, h3⟩
      have hcond : session.last_intent = some Intent.video ∧
          strTruthy session.last_video_id = true ∧ session.last_video_completed = true :=
        ⟨h1, by simp [strTruthy, hid, hv], h3⟩
      refine ⟨v, ?_, hid⟩
      rw [videoRequest.eq_def]
      simp only
      rw [if_pos hcond]
      simp [hid]
  · intro hcond
    rw [videoRequest.eq_def]
    simp only
    rw [if_neg hcond]

/-- Witness for the remix-iff theorem: a session with no prior video turn gets a fresh creation request with the default model, seconds and size. -/
theorem video_remix_iff_witness :
    (generate_video {} {} "p" none none { id := "j" } (fun _ => { id := "j" }) 0 "f").1 =
      VideoRequest.create "p" "sora-2" "4" "720x1280" :=
  (video_remix_iff {} {} "p" none none { id := "j" } (fun _ => { id := "j" }) 0 "f").2
    (by decide)

/-- C10: on a remix video turn the request carries only the prior job id and the new prompt; the seconds and size hints and the process-wide defaults are not passed at all, so the resolved seconds and size affect only the fresh-creation path. -/
theorem remix_ignores_hints (cfg : Config) (session : SessionState) (prompt : String)
    (s1 z1 s2 z2 : Option String) (job : VideoJob) (retrieve : Nat → VideoJob) (fuel : Nat)
    (fresh_hex : String)
    (h1 : session.last_intent = some Intent.video)
    (h2 : strTruthy session.last_video_id = true)
    (h3 : session.last_video_completed = true) :
    (generate_video cfg session prompt s1 z1 job retrieve fuel fresh_hex).1 =
      VideoRequest.remix (session.last_video_id.getD "") prompt ∧
    (generate_video cfg session prompt s1 z1 job retrieve fuel fresh_hex).1 =
      (generate_video cfg session prompt s2 z2 job retrieve fuel fresh_hex).1 := by
  have hr : ∀ s z, (generate_video cfg session prompt s z job retrieve fuel fresh_hex).1 =
      videoRequest cfg session prompt s z := fun s z => rfl
  have hv : ∀ s z, videoRequest cfg session prompt s z =
      VideoRequest.remix (session.last_video_id.getD "") prompt := by
    intro s z
    rw [videoRequest.eq_def]
    simp only
    rw [if_pos ⟨h1, h2, h3⟩]
  rw [hr, hr, hv, hv]
  exact ⟨rfl, rfl⟩

/-- Session used by the remix witnesses: the prior turn was a completed video job. -/
def sessionV : SessionState :=
  { last_intent := some Intent.video, last_video_id := some "jobA", last_video_completed := true }

/-- Witness for the remix-ignores-hints theorem at concrete hints. -/
theorem remix_ignores_hints_witness :
    (generate_video {} sessionV "night" (some "8") (some "1280x720") { id := "j2" }
        (fun _ => { id := "j2" }) 0 "f").1 = VideoRequest.remix "jobA" "night" ∧
    (generate_video {} sessionV "night" (some "8") (some "1280x720") { id := "j2" }
        (fun _ => { id := "j2" }) 0 "f").1 =
      (generate_video {} sessionV "night" none none { id := "j2" }
        (fun _ => { id := "j2" }) 0 "f").1 := by
  have h := remix_ignores_hints {} sessionV "night" (some "8") (some "1280x720") none none
    { id := "j2" } (fun _ => { id := "j2" }) 0 "f" (by decide) (by decide) (by decide)
  exact ⟨h.1, h.2⟩

/-- C8: the image backend request carries the prior continuation handle exactly when the session's last intent is image and a truthy handle is present; otherwise it carries no continuation handle, so a stale handle is never carried across a non-image turn. -/
theorem image_continuation_iff (cfg : Config) (session : SessionState) (prompt : String)
    (style : Option String) (resp : ImageResponse) (fresh_hex : String) :
    (∀ h, (generate_image cfg session prompt style resp fresh_hex).1.previous_response_id = some h ↔
      (session.last_intent = some Intent.image ∧ session.last_image_response_id = some h ∧
        h ≠ "")) ∧
    (session.last_intent ≠ some Intent.image →
      (generate_image cfg session prompt style resp fresh_hex).1.previous_response_id = none) := by
  have hreq : (generate_image cfg session prompt style resp fresh_hex).1 =
      imageRequest cfg session prompt style := rfl
  rw [hreq]
  constructor
  · intro h
    by_cases hcond : session.last_intent = some Intent.image ∧
        strTruthy session.last_image_response_id = true
    · simp only [imageRequest]
      rw [if_pos hcond]
      constructor
      · intro hh
        refine ⟨hcond.1, hh, ?_⟩
        have h2 := hcond.2
        rw [hh] at h2
        simpa [strTruthy] using h2
      · rintro ⟨_, hh, _⟩
        exact hh
    · simp only [imageRequest]
      rw [if_neg hcond]
      constructor
      · intro hh
        exact absurd hh (by simp)
      · rintro ⟨ha, hb, hc⟩
        exact absurd ⟨ha, by simp [strTruthy, hb, hc]⟩ hcond
  · intro hni
    simp only [imageRequest]
    rw [if_neg (fun hcond => hni hcond.1)]

/-- Session used by the image-continuation witness: the prior turn was an image turn with a stored handle. -/
def sessionI : SessionState :=
  { last_intent := some Intent.image, last_image_response_id := some "resp-9" }

/-- Witness for the image-continuation theorem: the second image turn carries the first turn's handle. -/
theorem image_continuation_iff_witness :
    (generate_image {} sessionI "p" none { id := "r2", output := [] } "f").1.previous_response_id =
      some "resp-9" :=
  ((image_continuation_iff {} sessionI "p" none { id := "r2", output := [] } "f").1 "resp-9").mpr
    (by decide)

/-- Turn environment of the failed-image-turn counterexample: the backend response carries no image payload. -/
def envC3 : TurnEnv :=
  { fresh_uuid := "u", decision := { intent := Intent.image, prompt := "a cat" },
    image_resp := { id := "resp-1", output := [] }, image_fresh_hex := "h" }

/-- C3 fails on the code: an image turn whose response contains no image payload raises the HTTP 500 no-output failure, yet the session ends the turn with the continuation handle set to the response id although it was absent before. -/
theorem image_handle_set_on_failed_turn_cex :
    (handle_message {} [("s", ({} : SessionState))]
        { session_id := some "s", text := "draw a cat" } envC3).2 =
      Except.error { status_code := 500, detail := "No image generated in response output." } ∧
    (handle_message {} [("s", ({} : SessionState))]
        { session_id := some "s", text := "draw a cat" } envC3).1.lookup "s" =
      some { messages := [Message.mk "user" "draw a cat"],
             last_image_response_id := some "resp-1" } := by
  exact ⟨rfl, rfl⟩

/-- C3 (amended): the continuation handle is set to the backend response id on every image turn in which the backend returns a response — including a turn that then fails with the generation-produced-no-output error, which is raised exactly when the extracted payload is falsy — while turns routed to other intents leave the handle unchanged. -/
theorem image_handle_after_turn :
    (∀ (cfg : Config) (session : SessionState) (prompt : String) (style : Option String)
        (resp : ImageResponse) (fresh_hex : String),
      (generate_image cfg session prompt style resp fresh_hex).2.1.last_image_response_id =
        some resp.id ∧
      ((generate_image cfg session prompt style resp fresh_hex).2.2 =
          Except.error { status_code := 500, detail := "No image generated in response output." } ↔
        strTruthy (findImageResult resp.output) = false)) ∧
    (∀ (cfg : Config) (sid : String) (session : SessionState) (ut : String) (env : TurnEnv),
      env.decision.intent ≠ Intent.image →
      (run_turn cfg sid session ut env).1.last_image_response_id =
        session.last_image_response_id) := by
  constructor
  · intro cfg session prompt style resp fresh_hex
    refine ⟨rfl, ?_⟩
    by_cases hp : strTruthy (findImageResult resp.output) = true
    · simp [generate_image, hp]
    · simp only [Bool.not_eq_true] at hp
      simp [generate_image, hp]
  · intro cfg sid session ut env h
    cases hint : env.decision.intent with
    | text => simp [run_turn, hint, generate_text]
    | image => exact absurd hint h
    | video =>
      simp only [run_turn, hint, generate_video]
      cases poll_video_until_done env.video_job.id env.video_retrieve env.video_fuel <;> simp

/-- Turn environment of the handle-preservation witness: a text turn. -/
def envTextW : TurnEnv :=
  { fresh_uuid := "u", decision := { intent := Intent.text, prompt := "p" },
    text_reply := some "r" }

/-- Witness for the amended image-handle theorem: a text turn leaves the handle unchanged. -/
theorem image_handle_after_turn_witness :
    (run_turn {} "s" sessionI "hi" envTextW).1.last_image_response_id =
      sessionI.last_image_response_id :=
  image_handle_after_turn.2 {} "s" sessionI "hi" envTextW (by decide)

theorem lookup_cons_self (sid : String) (st : SessionState) (l : Store) :
    List.lookup sid ((sid, st) :: l) = some st := by
  simp [List.lookup]

theorem lookup_cons_ne (a k : String) (v : SessionState) (l : Store) (h : a ≠ k) :
    List.lookup a ((k, v) :: l) = List.lookup a l := by
  have hb : (a == k) = false := beq_eq_false_iff_ne.mpr h
  simp [List.lookup, hb]

theorem lookup_storeUpdate (store : Store) (sid a : String) (st : SessionState) :
    (storeUpdate store sid st).lookup a =
      if a = sid then Option.map (fun _ => st) (store.lookup a) else store.lookup a := by
  induction store with
  | nil => by_cases h : a = sid <;> simp [storeUpdate, List.lookup, h]
  | cons p rest ih =>
    rcases p with ⟨k, v⟩
    have hcons : storeUpdate ((k, v) :: rest) sid st =
        (if k = sid then ((k : String), st) else (k, v)) :: storeUpdate rest sid st := rfl
    rw [hcons]
    by_cases hk : k = sid
    · rw [if_pos hk]
      by_cases ha : a = k
      · rw [ha, lookup_cons_self k st (storeUpdate rest sid st), if_pos hk,
          lookup_cons_self k v rest]
        rfl
      · rw [lookup_cons_ne a k st (storeUpdate rest sid st) ha, ih,
          lookup_cons_ne a k v rest ha]
    · rw [if_neg hk]
      by_cases ha : a = k
      · rw [ha, lookup_cons_self k v (storeUpdate rest sid st), if_neg hk,
          lookup_cons_self k v rest]
      · rw [lookup_cons_ne a k v (storeUpdate rest sid st) ha, ih,
          lookup_cons_ne a k v rest ha]

theorem get_or_create_unknown (store : Store) (sid fresh : String) (hsid : sid ≠ "")
    (hlk : store.lookup sid = none) :
    get_or_create_session store (some sid) fresh = (sid, {}, (sid, ({} : SessionState)) :: store) := by
  simp [get_or_create_session, hsid, hlk]

theorem get_or_create_known (store : Store) (sid fresh : String) (st : SessionState)
    (hsid : sid ≠ "") (hlk : store.lookup sid = some st) :
    get_or_create_session store (some sid) fresh = (sid, st, store) := by
  simp [get_or_create_session, hsid, hlk]

theorem get_or_create_falsy (store : Store) (session_id : Option String) (fresh : String)
    (h : strTruthy session_id = false) :
    get_or_create_session store session_id fresh =
      (fresh, {}, (fresh, ({} : SessionState)) :: store) := by
  cases session_id with
  | none => rfl
  | some s =>
    have hs : s = "" := by simpa [strTruthy] using h
    subst hs
    rfl

/-- C4 fails on the code: resolving with the provided but unknown id "abc" keeps "abc" itself as the key and returned id — no new unique id is generated even though the fresh uuid was available. -/
theorem resolve_reuses_unknown_id_cex :
    (get_or_create_session [] (some "abc") "fresh-uuid-1").1 = "abc" ∧
    (get_or_create_session [] (some "abc") "fresh-uuid-1").1 ≠ "fresh-uuid-1" ∧
    (get_or_create_session [] (some "abc") "fresh-uuid-1").2.2 =
      [("abc", ({} : SessionState))] := by
  exact ⟨rfl, by decide, rfl⟩

/-- C4 (amended): with an absent session id (None or empty) the fresh uuid becomes the key; with a provided but unknown non-empty id that id itself becomes the key; in both cases an empty SessionState is created, stored under the returned key and returned with it, a known id returns the stored state unchanged, and a later resolution with the returned key returns the stored state. -/
theorem resolve_unknown_behaviour :
    (∀ (store : Store) (sid fresh : String), sid ≠ "" → store.lookup sid = none →
      get_or_create_session store (some sid) fresh =
        (sid, {}, (sid, ({} : SessionState)) :: store)) ∧
    (∀ (store : Store) (session_id : Option String) (fresh : String),
      strTruthy session_id = false →
      get_or_create_session store session_id fresh =
        (fresh, {}, (fresh, ({} : SessionState)) :: store)) ∧
    (∀ (store : Store) (sid fresh : String) (st : SessionState), sid ≠ "" →
      store.lookup sid = some st →
      get_or_create_session store (some sid) fresh = (sid, st, store)) ∧
    (∀ (store : Store) (sid fresh fresh2 : String), sid ≠ "" → store.lookup sid = none →
      get_or_create_session ((get_or_create_session store (some sid) fresh).2.2) (some sid) fresh2 =
        (sid, {}, (get_or_create_session store (some sid) fresh).2.2)) := by
  refine ⟨get_or_create_unknown, get_or_create_falsy, get_or_create_known, ?_⟩
  intro store sid fresh fresh2 hsid hlk
  rw [get_or_create_unknown store sid fresh hsid hlk]
  exact get_or_create_known _ sid fresh2 {} hsid (lookup_cons_self sid {} store)

/-- Witness for the amended resolution theorem: an unknown id is inserted and a second resolution returns the stored empty state. -/
theorem resolve_unknown_behaviour_witness :
    get_or_create_session [("a", sessionV)] (some "b") "u7" =
      ("b", {}, [("b", ({} : SessionState)), ("a", sessionV)]) ∧
    get_or_create_session [("b", ({} : SessionState)), ("a", sessionV)] (some "b") "u8" =
      ("b", {}, [("b", ({} : SessionState)), ("a", sessionV)]) := by
  constructor
  · exact resolve_unknown_behaviour.1 [("a", sessionV)] "b" "u7" (by decide) (by decide)
  · exact resolve_unknown_behaviour.2.2.1 [("b", ({} : SessionState)), ("a", sessionV)] "b" "u8"
      {} (by decide) (by decide)

/-- Turn environment of the empty-input counterexample. -/
def envC1 : TurnEnv :=
  { fresh_uuid := "u1", decision := { intent := Intent.text, prompt := "" } }

/-- C1 fails on the code: a whitespace-only request with no session id yields the HTTP 400 empty-message error, yet the session store gains a fresh entry, because session resolution runs before the empty-input check. -/
theorem empty_input_inserts_session_cex :
    (handle_message {} [] { session_id := none, text := "   " } envC1).2 =
      Except.error { status_code := 400, detail := "Empty message." } ∧
    (handle_message {} [] { session_id := none, text := "   " } envC1).1 =
      [("u1", ({} : SessionState))] := by
  exact ⟨rfl, rfl⟩

/-- C1 (amended): empty or whitespace-only input always yields the HTTP 400 empty-message error and no existing session entry or any of its fields or messages is changed; however, session resolution runs first, so when the session id is absent or unknown the store gains one fresh empty SessionState entry. -/
theorem empty_input_behaviour (cfg : Config) (store : Store) (req : ChatRequest) (env : TurnEnv)
    (hempty : pyStrip req.text = "")
    (hfresh : store.lookup env.fresh_uuid = none) :
    (handle_message cfg store req env).2 =
      Except.error { status_code := 400, detail := "Empty message." } ∧
    (∀ sid st, store.lookup sid = some st →
      (handle_message cfg store req env).1.lookup sid = some st) ∧
    (∀ sid st, (handle_message cfg store req env).1.lookup sid = some st →
      store.lookup sid = some st ∨ st = {}) := by
  have hstore : (handle_message cfg store req env).1 =
      (get_or_create_session store req.session_id env.fresh_uuid).2.2 := by
    simp [handle_message, hempty]
  have herr : (handle_message cfg store req env).2 =
      Except.error { status_code := 400, detail := "Empty message." } := by
    simp [handle_message, hempty]
  rw [hstore]
  refine ⟨herr, ?_, ?_⟩
  · intro sid st hlk
    cases hid : req.session_id with
    | none =>
      rw [get_or_create_falsy store none env.fresh_uuid rfl]
      have hne : sid ≠ env.fresh_uuid := by
        intro h
        rw [h, hfresh] at hlk
        exact Option.noConfusion hlk
      rw [lookup_cons_ne sid env.fresh_uuid {} store hne]
      exact hlk
    | some s =>
      by_cases hs : s = ""
      · subst hs
        rw [get_or_create_falsy store (some "") env.fresh_uuid (by decide)]
        have hne : sid ≠ env.fresh_uuid := by
          intro h
          rw [h, hfresh] at hlk
          exact Option.noConfusion hlk
        rw [lookup_cons_ne sid env.fresh_uuid {} store hne]
        exact hlk
      · cases hlks : store.lookup s with
        | none =>
          rw [get_or_create_unknown store s env.fresh_uuid hs hlks]
          have hne : sid ≠ s := by
            intro h
            rw [h, hlks] at hlk
            exact Option.noConfusion hlk
          rw [lookup_cons_ne sid s {} store hne]
          exact hlk
        | some st0 =>
          rw [get_or_create_known store s env.fresh_uuid st0 hs hlks]
          exact hlk
  · intro sid st hlk
    cases hid : req.session_id with
    | none =>
      rw [hid] at hlk
      rw [get_or_create_falsy store none env.fresh_uuid rfl] at hlk
      by_cases hne : sid = env.fresh_uuid
      · subst hne
        rw [lookup_cons_self _ {} store] at hlk
        exact Or.inr (Option.some.inj hlk).symm
      · rw [lookup_cons_ne sid env.fresh_uuid {} store hne] at hlk
        exact Or.inl hlk
    | some s =>
      rw [hid] at hlk
      by_cases hs : s = ""
      · subst hs
        rw [get_or_create_falsy store (some "") env.fresh_uuid (by decide)] at hlk
        by_cases hne : sid = env.fresh_uuid
        · subst hne
          rw [lookup_cons_self _ {} store] at hlk
          exact Or.inr (Option.some.inj hlk).symm
        · rw [lookup_cons_ne sid env.fresh_uuid {} store hne] at hlk
          exact Or.inl hlk
      · cases hlks : store.lookup s with
        | none =>
          rw [get_or_create_unknown store s env.fresh_uuid hs hlks] at hlk
          by_cases hne : sid = s
          · subst hne
            rw [lookup_cons_self _ {} store] at hlk
            exact Or.inr (Option.some.inj hlk).symm
          · rw [lookup_cons_ne sid s {} store hne] at hlk
            exact Or.inl hlk
        | some st0 =>
          rw [get_or_create_known store s env.fresh_uuid st0 hs hlks] at hlk
          exact Or.inl hlk

/-- Witness for the amended empty-input theorem: the existing entry survives a whitespace-only request untouched. -/
theorem empty_input_behaviour_witness :
    (handle_message {} [("a", sessionV)] { session_id := none, text := " " } envC1).2 =
      Except.error { status_code := 400, detail := "Empty message." } ∧
    (handle_message {} [("a", sessionV)] { session_id := none, text := " " } envC1).1.lookup "a" =
      some sessionV := by
  have h := empty_input_behaviour {} [("a", sessionV)] { session_id := none, text := " " } envC1
    (by decide) (by decide)
  exact ⟨h.1, h.2.1 "a" sessionV (by decide)⟩

/-- Turn environment of the text-turn theorems. -/
def envC2 : TurnEnv :=
  { fresh_uuid := "u", decision := { intent := Intent.text, prompt := "write a haiku" },
    text_reply := some "haiku text" }

/-- C2 fails on the code: a single successful text turn grows the session's messages by three entries — the raw user text, the routed prompt as a second user message, and the assistant reply — not by two. -/
theorem text_turn_grows_by_three_cex :
    (handle_message {} [("s", ({} : SessionState))]
        { session_id := some "s", text := "hi" } envC2).1.lookup "s" =
      some { messages := [Message.mk "user" "hi", Message.mk "user" "write a haiku",
                          Message.mk "assistant" "haiku text"],
             last_intent := some Intent.text } ∧
    (handle_message {} [("s", ({} : SessionState))]
        { session_id := some "s", text := "hi" } envC2).2 =
      Except.ok { session_id := "s", intent := Intent.text, content_type := "text",
                  text := some "haiku text" } := by
  exact ⟨rfl, rfl⟩

/-- C2 (amended): every successful text turn grows the session's messages by exactly three entries — the raw user text, the routed prompt as a second user message and the assistant reply — appended in that order after the unchanged prior messages, so original submission order is preserved across any sequence of such turns. -/
theorem text_turn_appends (cfg : Config) (store : Store) (sid : String) (st : SessionState)
    (req : ChatRequest) (env : TurnEnv)
    (hsid : req.session_id = some sid) (hne : sid ≠ "")
    (hlk : store.lookup sid = some st)
    (hnonempty : pyStrip req.text ≠ "")
    (hintent : env.decision.intent = Intent.text) :
    (handle_message cfg store req env).1.lookup sid =
      some { st with
        messages := st.messages ++ [Message.mk "user" (pyStrip req.text),
          Message.mk "user" env.decision.prompt,
          Message.mk "assistant" (match env.text_reply with | none => "" | some s => s)],
        last_intent := some Intent.text } ∧
    (handle_message cfg store req env).2 =
      Except.ok { session_id := sid, intent := Intent.text, content_type := "text",
                  text := some (match env.text_reply with | none => "" | some s => s) } := by
  have hres := get_or_create_known store sid env.fresh_uuid st hne hlk
  have hcond : ¬ ((pyStrip req.text == "") = true) := by simp [hnonempty]
  have hm : handle_message cfg store req env =
      (storeUpdate store sid (run_turn cfg sid st (pyStrip req.text) env).1,
        (run_turn cfg sid st (pyStrip req.text) env).2) := by
    simp only [handle_message, hsid, hres]
    rw [if_neg hcond]
  rw [hm]
  have hrt : run_turn cfg sid st (pyStrip req.text) env =
      ({ st with
          messages := st.messages ++ [Message.mk "user" (pyStrip req.text),
            Message.mk "user" env.decision.prompt,
            Message.mk "assistant" (match env.text_reply with | none => "" | some s => s)],
          last_intent := some Intent.text },
        Except.ok { session_id := sid, intent := Intent.text, content_type := "text",
                    text := some (match env.text_reply with | none => "" | some s => s) }) := by
    simp [run_turn, hintent, generate_text]
  rw [hrt]
  constructor
  · rw [lookup_storeUpdate, if_pos rfl, hlk]
    rfl
  · rfl

/-- Witness for the amended text-turn theorem at a concrete session and request. -/
theorem text_turn_appends_witness :
    (handle_message {} [("s", ({} : SessionState))]
        { session_id := some "s", text := "hello there" } envC2).2 =
      Except.ok { session_id := "s", intent := Intent.text, content_type := "text",
                  text := some "haiku text" } :=
  (text_turn_appends {} [("s", ({} : SessionState))] "s" {}
    { session_id := some "s", text := "hello there" } envC2 rfl (by decide) (by decide)
    (by decide) rfl).2

/-- Invariant of C6: a set completed flag implies a recorded job id. -/
def goodSession (s : SessionState) : Prop :=
  s.last_video_completed = true → s.last_video_id.isSome = true

instance (s : SessionState) : Decidable (goodSession s) :=
  inferInstanceAs (Decidable (_ → _))

/-- A store in which every stored session satisfies the video invariant. -/
def storeGood (store : Store) : Prop :=
  ∀ p ∈ store, goodSession p.2

instance (store : Store) : Decidable (storeGood store) :=
  List.decidableBAll _ store

theorem goodSession_default : goodSession ({} : SessionState) := by
  intro h
  exact absurd h (by decide)

theorem lookup_mem {l : Store} {a : String} {b : SessionState} (h : l.lookup a = some b) :
    (a, b) ∈ l := by
  induction l with
  | nil => simp [List.lookup] at h
  | cons p rest ih =>
    rcases p with ⟨k, v⟩
    rw [List.lookup] at h
    by_cases hk : a == k
    · simp [hk] at h
      subst h
      simp at hk
      subst hk
      exact List.mem_cons_self _ _
    · simp [hk] at h
      exact List.mem_cons_of_mem _ (ih h)

theorem storeGood_cons (k : String) (st : SessionState) (store : Store)
    (h : storeGood store) (hg : goodSession st) : storeGood ((k, st) :: store) := by
  intro p hp
  rcases List.mem_cons.mp hp with hp | hp
  · rw [hp]
    exact hg
  · exact h p hp

theorem storeGood_storeUpdate (store : Store) (sid : String) (st : SessionState)
    (h : storeGood store) (hg : goodSession st) : storeGood (storeUpdate store sid st) := by
  intro p hp
  simp only [storeUpdate] at hp
  rcases List.mem_map.mp hp with ⟨q, hq, hfq⟩
  by_cases hqs : q.1 = sid
  · rw [← hfq, if_pos hqs]
    exact hg
  · rw [← hfq, if_neg hqs]
    exact h q hq

theorem run_turn_good (cfg : Config) (sid : String) (session : SessionState) (ut : String)
    (env : TurnEnv) (h : goodSession session) : goodSession (run_turn cfg sid session ut env).1 := by
  cases hint : env.decision.intent with
  | text =>
    simp only [run_turn, hint, generate_text]
    intro hc
    exact h hc
  | image =>
    simp only [run_turn, hint, generate_image]
    by_cases himg : strTruthy (findImageResult env.image_resp.output) = true
    · rw [if_pos himg]
      intro hc
      exact h hc
    · rw [if_neg himg]
      intro hc
      exact h hc
  | video =>
    simp only [run_turn, hint, generate_video]
    cases hpoll : poll_video_until_done env.video_job.id env.video_retrieve env.video_fuel with
    | error e =>
      intro hc
      exact Bool.noConfusion hc
    | ok j =>
      intro _
      rfl

/-- Case analysis of session resolution: either the id was known and the store is returned unchanged with the stored state, or the store gains one fresh empty entry under the returned key. -/
theorem get_or_create_cases (store : Store) (session_id : Option String) (fresh : String) :
    (∃ st, store.lookup (get_or_create_session store session_id fresh).1 = some st ∧
      (get_or_create_session store session_id fresh).2.1 = st ∧
      (get_or_create_session store session_id fresh).2.2 = store) ∨
    ((get_or_create_session store session_id fresh).2.1 = {} ∧
      (get_or_create_session store session_id fresh).2.2 =
        ((get_or_create_session store session_id fresh).1, ({} : SessionState)) :: store) := by
  cases session_id with
  | none =>
    right
    rw [get_or_create_falsy store none fresh rfl]
    exact ⟨rfl, rfl⟩
  | some s =>
    by_cases hs : s = ""
    · subst hs
      right
      rw [get_or_create_falsy store (some "") fresh (by decide)]
      exact ⟨rfl, rfl⟩
    · cases hlks : store.lookup s with
      | none =>
        right
        rw [get_or_create_unknown store s fresh hs hlks]
        exact ⟨rfl, rfl⟩
      | some st0 =>
        left
        rw [get_or_create_known store s fresh st0 hs hlks]
        exact ⟨st0, hlks, rfl, rfl⟩

theorem handle_message_good (cfg : Config) (store : Store) (req : ChatRequest) (env : TurnEnv)
    (h : storeGood store) : storeGood (handle_message cfg store req env).1 := by
  by_cases hempty : (pyStrip req.text == "") = true
  · have hst : (handle_message cfg store req env).1 =
        (get_or_create_session store req.session_id env.fresh_uuid).2.2 := by
      simp [handle_message, hempty]
    rw [hst]
    rcases get_or_create_cases store req.session_id env.fresh_uuid with ⟨st, _, _, hs2⟩ | ⟨_, hs2⟩
    · rw [hs2]
      exact h
    · rw [hs2]
      exact storeGood_cons _ _ _ h goodSession_default
  · have hst : (handle_message cfg store req env).1 =
        storeUpdate (get_or_create_session store req.session_id env.fresh_uuid).2.2
          (get_or_create_session store req.session_id env.fresh_uuid).1
          (run_turn cfg (get_or_create_session store req.session_id env.fresh_uuid).1
            (get_or_create_session store req.session_id env.fresh_uuid).2.1
            (pyStrip req.text) env).1 := by
      simp [handle_message, hempty]
    rw [hst]
    rcases get_or_create_cases store req.session_id env.fresh_uuid with
      ⟨st, hlk, hs1, hs2⟩ | ⟨hs1, hs2⟩
    · rw [hs1, hs2]
      exact storeGood_storeUpdate _ _ _ h (run_turn_good _ _ _ _ _ (h _ (lookup_mem hlk)))
    · rw [hs1, hs2]
      exact storeGood_storeUpdate _ _ _ (storeGood_cons _ _ _ h goodSession_default)
        (run_turn_good _ _ _ _ _ goodSession_default)

/-- C6: every video turn records the new job id with the completed flag cleared before polling starts — any polling failure leaves exactly that recorded, non-completed state — the flag is set only after a poll observation was completed, and across all orchestrator turns a set completed flag implies a recorded job id, so it is never true while the job id is unset. -/
theorem video_state_invariant :
    (∀ (cfg : Config) (session : SessionState) (prompt : String) (seconds size : Option String)
        (job : VideoJob) (retrieve : Nat → VideoJob) (fuel : Nat) (fresh_hex : String),
      (generate_video cfg session prompt seconds size job retrieve fuel
          fresh_hex).2.1.last_video_id = some job.id ∧
      (∀ e, (generate_video cfg session prompt seconds size job retrieve fuel fresh_hex).2.2 =
          Except.error e →
        (generate_video cfg session prompt seconds size job retrieve fuel fresh_hex).2.1 =
          { session with last_video_id := some job.id, last_video_completed := false }) ∧
      ((generate_video cfg session prompt seconds size job retrieve fuel
          fresh_hex).2.1.last_video_completed = true →
        ∃ k, k < fuel ∧ (retrieve k).status = some "completed")) ∧
    (∀ (cfg : Config) (store : Store) (req : ChatRequest) (env : TurnEnv),
      storeGood store → storeGood (handle_message cfg store req env).1) := by
  constructor
  · intro cfg session prompt seconds size job retrieve fuel fresh_hex
    simp only [generate_video]
    cases hpoll : poll_video_until_done job.id retrieve fuel with
    | error e =>
      refine ⟨rfl, fun e2 he => rfl, ?_⟩
      intro hc
      exact Bool.noConfusion hc
    | ok j =>
      refine ⟨rfl, fun e2 he => Except.noConfusion he, ?_⟩
      intro _
      obtain ⟨i, _, h2, h3, _⟩ := poll_go_ok_completed job.id retrieve fuel 0 j hpoll
      exact ⟨i, by omega, h3⟩
  · exact handle_message_good

/-- Turn environment of the video invariant witness: a completed video job after two polls. -/
def envV : TurnEnv :=
  { fresh_uuid := "u", decision := { intent := Intent.video, prompt := "sunset" },
    video_job := { id := "j9" },
    video_retrieve := fun _ => { id := "j9", status := some "completed" },
    video_fuel := 2, video_fresh_hex := "vh" }

/-- Witness for the video invariant theorem: the invariant is preserved across a concrete video turn. -/
theorem video_state_invariant_witness :
    storeGood (handle_message {} [("s", sessionV)]
      { session_id := some "s", text := "another clip" } envV).1 :=
  video_state_invariant.2 {} [("s", sessionV)]
    { session_id := some "s", text := "another clip" } envV (by decide)
